import Mathlib

/-!
# Verification of `lemur.authorities.service`

A shallow embedding of `src/lemur/authorities/service.py` (the authority
provisioning and query service of Lemur) together with proofs about it.

Python's dynamic values are modelled where the dynamism is observable:
the `active` flag travels through the code either as a boolean or as the
literal text taken from a filter expression, so it is modelled by `PyVal`.
Optional dictionary keys become `Option` fields; `kwargs['k']` accesses
that can raise `KeyError` are modelled in an error monad, as are the
`AttributeError`/`IndexError` that attribute access on `None` and `[0]`
on an empty list raise.

Collaborating modules of the repository that are not part of the source
under verification (`lemur.database`, `lemur.roles.service`,
`lemur.notifications.service`) are modelled from the specification; each
such definition carries a doc comment saying so.
-/

namespace Lemur

/-- A dynamically typed Python value as far as this module observes it:
the `active` flag is written as a boolean by `update` but compared with
the literal text of a filter expression by `render`. -/
inductive PyVal where
  | pbool (b : Bool)
  | pstr (s : String)
deriving DecidableEq, Repr

/-- Python `==` on the values above: a `bool` never equals a `str`. -/
def pyEq : PyVal → PyVal → Bool
  | .pbool a, .pbool b => a == b
  | .pstr a, .pstr b => a == b
  | _, _ => false

/-- Python truthiness of a `PyVal`. -/
def pyTruthy : PyVal → Bool
  | .pbool b => b
  | .pstr s => !(s == "")

/-- Truthiness of an optional Python value (`None` is falsy). -/
def pyTruthyOpt : Option PyVal → Bool
  | none => false
  | some v => pyTruthy v

/-- Truthiness of an optional string (`None` and `""` are falsy). -/
def truthyStr : Option String → Bool
  | none => false
  | some s => !(s == "")

/-- `str.format` of an optional value: Python prints `None` for `None`. -/
def fmtOpt : Option String → String
  | none => "None"
  | some s => s

/-- Boolean list membership, kept as an explicit recursion so concrete
evaluations reduce definitionally. -/
def memB {α : Type} [DecidableEq α] (x : α) : List α → Bool
  | [] => false
  | y :: ys => if x = y then true else memB x ys

/-- `leadsWith n h` holds when the character list `n` starts the list `h`. -/
def leadsWith : List Char → List Char → Bool
  | [], _ => true
  | _ :: _, [] => false
  | x :: xs, y :: ys => x == y && leadsWith xs ys

/-- `substrL n h`: the character list `n` occurs contiguously in `h`
(the model of Python's `in` on strings). -/
def substrL (n : List Char) : List Char → Bool
  | [] => leadsWith n []
  | y :: ys => leadsWith n (y :: ys) || substrL n ys

/-- Python `needle in hay` on strings. -/
def isSubstr (needle hay : String) : Bool :=
  substrL needle.toList hay.toList

/-- Splitting a character list at every occurrence of `sep`
(the model of Python's `str.split(sep)` for a one-character separator). -/
def splitCharAux (sep : Char) : List Char → List Char → List (List Char)
  | [], acc => [acc.reverse]
  | c :: cs, acc =>
    if c == sep then acc.reverse :: splitCharAux sep cs []
    else splitCharAux sep cs (c :: acc)

/-- Python `s.split(';')`. -/
def splitSemi (s : String) : List String :=
  (splitCharAux ';' s.toList []).map List.asString

/-- Lexicographic comparison of character lists by code point. -/
def lexLe : List Char → List Char → Bool
  | [], _ => true
  | _ :: _, [] => false
  | x :: xs, y :: ys =>
    if x.toNat < y.toNat then true
    else if y.toNat < x.toNat then false
    else lexLe xs ys

/-- String order used by the sort model. -/
def strLe (a b : String) : Bool :=
  lexLe a.toList b.toList

/-- The errors this module can surface.  `keyError`, `attributeError` and
`indexError` are Python's own exceptions; `notFound` is the persistence
boundary's miss on a lookup; `pluginError` wraps an issuer-plugin failure;
`validationError` is the API layer's rejection of a malformed request. -/
inductive Err where
  | keyError (k : String)
  | attributeError
  | indexError
  | notFound
  | pluginError (msg : String)
  | validationError
deriving DecidableEq, Repr

/-- A Role: named credential grant, optionally back-referencing its owning
Authority (`role.authority` in the source) by id. -/
structure Role where
  name : String
  username : String
  password : String
  description : String
  authorityId : Option Nat
deriving DecidableEq, Repr

/-- A notification policy bound to a certificate.
Modelled from the spec: the notification template service (§3, §6) —
"category tag + recipient + trigger parameters; created from a template". -/
structure NotificationPolicy where
  category : String
  recipient : Option String
deriving DecidableEq, Repr

/-- A Certificate: body, chain, owner, description, creator, notifications. -/
structure Certificate where
  body : String
  chain : String
  owner : Option String
  description : String
  userEmail : String
  notifications : List NotificationPolicy
deriving DecidableEq, Repr

/-- An Authority.  `name` is `Option` because `create` reads it with
`kwargs.get('caName')`, which yields `None` when absent; `owner` and
`description` are `Option` because `update` overwrites them with its
(possibly `None`) parameters. -/
structure Authority where
  id : Nat
  name : Option String
  owner : Option String
  description : Option String
  pluginName : String
  body : String
  chain : String
  active : PyVal
  roles : List Role
deriving DecidableEq, Repr

/-- The persisted state visible to this module. -/
structure Store where
  authorities : List Authority
  certs : List Certificate
  roles : List Role
deriving DecidableEq, Repr

/-- The acting identity (`g.current_user`): email, admin flag, held Roles,
directly associated Authorities. -/
structure User where
  email : String
  isAdmin : Bool
  roles : List Role
  authorities : List Authority
deriving DecidableEq, Repr

/-- The `Authority` related to a Role through its back-reference
(`role.authority` in the source): the stored Authority with the
referenced id, if any. -/
def roleAuthority (s : Store) (r : Role) : Option Authority :=
  match r.authorityId with
  | none => none
  | some i => s.authorities.find? (fun a => a.id == i)

/-- Modelled from the spec: `getById` of the persistence boundary (§6,
`lemur.database`, not under `src/`); an unknown Authority id surfaces as
`NotFoundError` (§7). -/
def databaseGetById (s : Store) (authorityId : Nat) : Except Err Authority :=
  match s.authorities.find? (fun a => a.id == authorityId) with
  | none => .error .notFound
  | some a => .ok a

/-- Modelled from the spec: `getByField` of the persistence boundary for
`field='name'` (§6); an unknown Authority name surfaces as `NotFoundError`
(§7). -/
def databaseGetByName (s : Store) (authorityName : String) : Except Err Authority :=
  match s.authorities.find? (fun a => a.name == some authorityName) with
  | none => .error .notFound
  | some a => .ok a

/-- `get(authority_id)` of the source: retrieve an authority by id. -/
def get (s : Store) (authorityId : Nat) : Except Err Authority :=
  databaseGetById s authorityId

/-- `get_by_name(authority_name)` of the source. -/
def get_by_name (s : Store) (authorityName : String) : Except Err Authority :=
  databaseGetByName s authorityName

/-- `update(authority_id, description, owner, active, roles)` of the source:
fetch the authority; if `roles` is truthy (a non-empty list) replace the
Role set wholesale (`database.update_list`, modelled from the spec:
"Roles attached to an Authority are replaced wholesale (not merged)", §3);
if `active` is truthy set it; overwrite `description` and `owner`
unconditionally; persist.  Returns the new store and the updated authority. -/
def update (s : Store) (authorityId : Nat) (description owner : Option String)
    (active : Option PyVal) (roles : Option (List Role)) :
    Except Err (Store × Authority) :=
  match get s authorityId with
  | .error e => .error e
  | .ok a0 =>
    let a1 := match roles with
      | some (r :: rs) => { a0 with roles := r :: rs }
      | _ => a0
    let a2 := if pyTruthyOpt active then
        match active with
        | some v => { a1 with active := v }
        | none => a1
      else a1
    let a3 := { a2 with description := description, owner := owner }
    .ok ({ s with authorities :=
            s.authorities.map (fun b => if b.id == authorityId then a3 else b) },
         a3)

/-- `get_all()` of the source: `database.find_all(query, Authority, {})`
(modelled from the spec: an empty filter dictionary leaves the query
unrestricted, §6), so every persisted authority is returned.  The acting
identity is in ambient request scope in the source; it is threaded here as
an explicit, unread parameter. -/
def get_all (s : Store) (_u : User) : List Authority :=
  s.authorities

/-- `get_authority_role(ca_name)` of the source: for an admin, look the
authority up by name and take `authority.roles[0]` (an empty Role set
raises `IndexError`; a failed lookup fails rather than returning `None`);
for a non-admin, scan the held roles for one whose related authority has
the given name, returning `None` if the scan falls through. -/
def get_authority_role (s : Store) (u : User) (caName : String) :
    Except Err (Option Role) :=
  if u.isAdmin then
    match get_by_name s caName with
    | .error e => .error e
    | .ok a =>
      match a.roles with
      | [] => .error .indexError
      | r :: _ => .ok (some r)
  else
    .ok (u.roles.find? (fun r =>
      match roleAuthority s r with
      | some a => a.name == some caName
      | none => false))

/-! ## The access-scoped query engine (`render`) -/

/-- The list parameters `render` pops from `args`:
sort field, sort direction, page, page size and filter expression. -/
structure ListArgs where
  sortBy : Option String
  sortDir : Option String
  page : Nat
  count : Nat
  filter : Option String
deriving DecidableEq, Repr

/-- One page of results: the bounded slice plus the pre-pagination total. -/
structure Page where
  items : List Authority
  total : Nat
deriving DecidableEq, Repr

/-- The text value of a named Authority column, for the generic filter and
for sorting.  Modelled from the spec: the persistence boundary supports
"filtering by arbitrary entity field" (§6); only the text-valued columns of
the data model (§3) participate, any other name matches nothing. -/
def getField (a : Authority) (f : String) : Option String :=
  if f == "name" then a.name
  else if f == "owner" then a.owner
  else if f == "description" then a.description
  else if f == "pluginName" then some a.pluginName
  else none

/-- The filter step of `render`: with a truthy filter string, split on `';'`;
if the text `"active"` occurs anywhere in the whole expression (the source
tests `'active' in filt`, not the field name), keep the authorities whose
`active` flag equals the second term as a literal text value; otherwise
apply the generic contains policy of `database.filter` (modelled from the
spec: "a generic match/contains policy against that field", §4.4) to the
field named by the first term.  A missing second term is Python's
`IndexError`. -/
def applyFilter (filt : Option String) (l : List Authority) :
    Except Err (List Authority) :=
  if truthyStr filt then
    let f := fmtOpt filt
    let terms := splitSemi f
    if isSubstr "active" f then
      match terms.get? 1 with
      | none => .error .indexError
      | some v => .ok (l.filter (fun a => pyEq a.active (.pstr v)))
    else
      match terms.get? 1 with
      | none => .error .indexError
      | some v => .ok (l.filter (fun a =>
          match getField a (terms.headD "") with
          | some fieldVal => isSubstr v fieldVal
          | none => false))
  else .ok l

/-- The pure predicate the filter step keeps, for stating theorems:
`applyFilter` succeeds exactly with `l.filter (filterPred filt)`. -/
def filterPred (filt : Option String) (a : Authority) : Bool :=
  if truthyStr filt then
    let f := fmtOpt filt
    let terms := splitSemi f
    match terms.get? 1 with
    | none => false
    | some v =>
      if isSubstr "active" f then
        pyEq a.active (.pstr v)
      else
        match getField a (terms.headD "") with
        | some fieldVal => isSubstr v fieldVal
        | none => false
  else true

/-- The authority ids reachable from the acting identity's Roles
(the `authority_ids` list `render` builds for a non-admin). -/
def visibleIds (s : Store) (u : User) : List Nat :=
  u.roles.filterMap (fun r => (roleAuthority s r).map Authority.id)

/-- Insertion of an authority into a list sorted by `le`. -/
def sortInsert (le : Authority → Authority → Bool) (a : Authority) :
    List Authority → List Authority
  | [] => [a]
  | b :: bs => if le a b then a :: b :: bs else b :: sortInsert le a bs

/-- Insertion sort over authorities by `le`. -/
def sortBy (le : Authority → Authority → Bool) : List Authority → List Authority
  | [] => []
  | a :: as => sortInsert le a (sortBy le as)

/-- Modelled from the spec: `database.sort(query, Authority, sort_by,
sort_dir)` (§4.4, not under `src/`) orders by the named column, descending
when the direction is `"desc"`. -/
def applySort (sBy sDir : Option String) (l : List Authority) : List Authority :=
  if truthyStr sBy && truthyStr sDir then
    let key := fun a => fmtOpt (getField a (fmtOpt sBy))
    if sDir == some "desc" then
      sortBy (fun a b => strLe (key b) (key a)) l
    else
      sortBy (fun a b => strLe (key a) (key b)) l
  else l

/-- Modelled from the spec: `database.paginate(query, page, count)` (§4.4)
returns the bounded slice for the 1-based page together with the total
matching count before pagination. -/
def paginate (l : List Authority) (page count : Nat) : Page :=
  { items := (l.drop ((page - 1) * count)).take count, total := l.length }

/-- `render(args)` of the source: start from all authorities, apply the
filter expression, restrict a non-admin to the authorities whose id occurs
among the acting identity's role-reachable authority ids, apply
`database.find_all` with the now-empty args (a no-op), sort when both sort
parameters are truthy, and paginate. -/
def render (s : Store) (u : User) (args : ListArgs) : Except Err Page :=
  match applyFilter args.filter s.authorities with
  | .error e => .error e
  | .ok l1 =>
    let l2 := if u.isAdmin then l1
              else l1.filter (fun a => memB a.id (visibleIds s u))
    let l3 := applySort args.sortBy args.sortDir l2
    .ok (paginate l3 args.page args.count)

/-! ## The authority provisioner (`create`) -/

/-- The creation parameters (`kwargs`); every key may be absent. -/
structure Params where
  caName : Option String
  ownerEmail : Option String
  pluginName : Option String
  caDescription : Option String
deriving DecidableEq, Repr

/-- A role descriptor returned by an issuer plugin. -/
structure RoleDescriptor where
  name : String
  password : String
  username : String
deriving DecidableEq, Repr

/-- The issuer plugin contract (§4.1): given the creation parameters and
the creator's email, return a certificate body, its chain, and the role
descriptors, or fail. -/
structure IssuerPlugin where
  create_authority : Params → String → Except String (String × String × List RoleDescriptor)

/-- `plugins.get(name)`: look the plugin up in the name-keyed registry;
`None` (an absent `pluginName`) finds nothing. -/
def pluginsGet (reg : List (String × IssuerPlugin)) :
    Option String → Option IssuerPlugin
  | none => none
  | some n => (reg.find? (fun p => p.1 == n)).map Prod.snd

/-- Application configuration (`current_app.config.get`). -/
structure Config where
  securityTeamEmail : Option String
deriving DecidableEq, Repr

/-- Modelled from the spec: the notification template service (§6,
`lemur.notifications.service`, not under `src/`):
`defaultExpirationNotifications(category, recipient)` builds a list of
notification policies from a template. -/
def create_default_expiration_notifications (category : String)
    (recipient : Option String) : List NotificationPolicy :=
  [{ category := category, recipient := recipient }]

/-- Observable steps of a `create` run, one event per statement of the
source that calls the plugin, persists an entity, or constructs and
persists the Authority, in the order the statements execute. -/
inductive Event where
  | pluginCalled
  | rolePersisted (name : String)
  | authorityConstructed
  | certPersisted
  | authorityPersisted
  | userAuthorityLinked
deriving DecidableEq, Repr

/-- Modelled from the spec: `role_service.create` (§4.2,
`lemur.roles.service`, not under `src/`): "if a Role with the given name
already exists, reuse it (idempotent); otherwise create it with the
supplied credential and a generated description referencing the
originating plugin."  Returns the store, the provisioned role, and the
persistence events (none on reuse). -/
def roleServiceCreate (s : Store) (name password description username : String) :
    Store × Role × List Event :=
  match s.roles.find? (fun r => r.name == name) with
  | some r => (s, r, [])
  | none =>
    let r : Role := { name := name, username := username, password := password,
                      description := description, authorityId := none }
    ({ s with roles := s.roles ++ [r] }, r, [.rolePersisted name])

/-- The description `create` passes to `role_service.create`:
`"{0} auto generated role".format(kwargs.get('pluginName'))`. -/
def autoRoleDescription (pluginName : Option String) : String :=
  let pn := fmtOpt pluginName
  s!"{pn} auto generated role"

/-- The role loop of `create`: provision each descriptor through
`role_service.create`; a provisioned role whose `username` is `"admin"`
is appended to the acting identity's held roles; all provisioned roles
are collected in order. -/
def provisionRoles (s : Store) (u : User) (pluginName : Option String) :
    List RoleDescriptor → Store × User × List Role × List Event
  | [] => (s, u, [], [])
  | d :: ds =>
    let (s1, role, evs1) :=
      roleServiceCreate s d.name d.password (autoRoleDescription pluginName)
        d.username
    let u1 := if role.username == "admin" then
        { u with roles := u.roles ++ [role] }
      else u
    let (s2, u2, rs, evs2) := provisionRoles s1 u1 pluginName ds
    (s2, u2, role :: rs, evs1 ++ evs2)

/-- The full outcome of a `create` run: the store and acting identity after
the run (Python mutates `g.current_user` in place, so mutations survive a
later exception), the event trace, and the returned authority or error. -/
structure CreateResult where
  store : Store
  user : User
  trace : List Event
  result : Except Err Authority

/-- A fresh id for a newly persisted authority.  The real id is assigned by
the persistence engine on insert; only freshness can matter here. -/
def freshId (s : Store) : Nat :=
  s.authorities.foldr (fun a m => max (a.id + 1) m) 0

/-- `create(kwargs)` of the source, in source order: resolve the plugin
from the registry (`None` raises at the call site), call
`issuer.create_authority` with the creator attached, build the Certificate
(owner from `kwargs['ownerEmail']`, a `KeyError` when absent; description
from `kwargs.get('caName')`; default expiration notifications), run the
role loop, construct the Authority (reading `kwargs['pluginName']` and
`kwargs['caDescription']`, `KeyError` when absent), persist the
Certificate, persist the Authority, and associate it with the acting
identity. -/
def create (s : Store) (u : User) (reg : List (String × IssuerPlugin))
    (cfg : Config) (p : Params) : CreateResult :=
  match pluginsGet reg p.pluginName with
  | none => ⟨s, u, [], .error .attributeError⟩
  | some issuer =>
    match issuer.create_authority p u.email with
    | .error msg => ⟨s, u, [.pluginCalled], .error (.pluginError msg)⟩
    | .ok (certBody, intermediate, issuerRoles) =>
      match p.ownerEmail with
      | none => ⟨s, u, [.pluginCalled], .error (.keyError "ownerEmail")⟩
      | some ownerEmail =>
        let caNameStr := fmtOpt p.caName
        let cert : Certificate :=
          { body := certBody, chain := intermediate, owner := some ownerEmail,
            description :=
              s!"This is the ROOT certificate for the {caNameStr} certificate authority",
            userEmail := u.email,
            notifications := create_default_expiration_notifications
              "DEFAULT_SECURITY" cfg.securityTeamEmail }
        let (s2, u2, roleObjs, ev1) := provisionRoles s u p.pluginName issuerRoles
        match p.pluginName with
        | none => ⟨s2, u2, .pluginCalled :: ev1, .error (.keyError "pluginName")⟩
        | some pn =>
          match p.caDescription with
          | none => ⟨s2, u2, .pluginCalled :: ev1, .error (.keyError "caDescription")⟩
          | some caDesc =>
            let authority : Authority :=
              { id := freshId s2, name := p.caName, owner := some ownerEmail,
                description := some caDesc, pluginName := pn, body := certBody,
                chain := intermediate, active := .pbool true, roles := roleObjs }
            let s3 := { s2 with certs := s2.certs ++ [cert] }
            let s4 := { s3 with authorities := s3.authorities ++ [authority] }
            let u3 := { u2 with authorities := u2.authorities ++ [authority] }
            ⟨s4, u3,
             .pluginCalled :: ev1 ++
               [.authorityConstructed, .certPersisted, .authorityPersisted,
                .userAuthorityLinked],
             .ok authority⟩

/-- The store after the role loop. -/
def provisionedStore (s : Store) (u : User) (pn : Option String)
    (ds : List RoleDescriptor) : Store :=
  (provisionRoles s u pn ds).1

/-- The acting identity after the role loop. -/
def provisionedUser (s : Store) (u : User) (pn : Option String)
    (ds : List RoleDescriptor) : User :=
  (provisionRoles s u pn ds).2.1

/-- The roles collected by the role loop, in descriptor order. -/
def provisionedRoles (s : Store) (u : User) (pn : Option String)
    (ds : List RoleDescriptor) : List Role :=
  (provisionRoles s u pn ds).2.2.1

/-- The persistence events of the role loop. -/
def provisionedEvents (s : Store) (u : User) (pn : Option String)
    (ds : List RoleDescriptor) : List Event :=
  (provisionRoles s u pn ds).2.2.2

/-- Modelled from the spec: the request validation performed by the API
layer in front of `create` (not under `src/`): "Required fields: CA name,
owner email, plugin name, description; missing any fails with
`ValidationError`" (§4.3). -/
def validateCreateParams (p : Params) : Except Err Unit :=
  if p.caName.isNone || p.ownerEmail.isNone || p.pluginName.isNone
      || p.caDescription.isNone then
    .error .validationError
  else .ok ()

/-- The externally invoked create operation: request validation (API layer,
modelled from the spec) followed by the service-level `create`. -/
def createOp (s : Store) (u : User) (reg : List (String × IssuerPlugin))
    (cfg : Config) (p : Params) : CreateResult :=
  match validateCreateParams p with
  | .error e => ⟨s, u, [], .error e⟩
  | .ok _ => create s u reg cfg p

/-! ## Referential well-formedness

`Authority.roles` and `Role.authorityId` are the two sides of one
persistence relationship in the data model (§3: a Role carries an
"optional back-reference to an owning Authority", an Authority a "set of
Role references"), and authority ids are unique.  Stores produced by the
persistence engine satisfy this. -/

/-- Consistency of the relationship between a store and an identity's
held roles: authority ids are unique, and a held role whose back-reference
names a stored authority is a member of that authority's Role set. -/
def Consistent (s : Store) (u : User) : Prop :=
  (s.authorities.map Authority.id).Nodup ∧
  ∀ r ∈ u.roles, ∀ a ∈ s.authorities, r.authorityId = some a.id → r ∈ a.roles

instance (s : Store) (u : User) : Decidable (Consistent s u) := by
  unfold Consistent
  infer_instance

/-! ## Concrete fixtures used by witnesses and counterexamples -/

/-- A role fixture. -/
def mkRole (n un : String) (aid : Option Nat) : Role :=
  { name := n, username := un, password := "p", description := "d",
    authorityId := aid }

/-- An authority fixture. -/
def mkAuth (i : Nat) (n owner : String) (act : PyVal) (rs : List Role) :
    Authority :=
  { id := i, name := some n, owner := some owner, description := some "d",
    pluginName := "pl", body := "B", chain := "C", active := act, roles := rs }

/-- Authority 1: active flag stored as the text `"true"`, one admin role. -/
def auth1 : Authority :=
  mkAuth 1 "ca1" "alice@x" (.pstr "true") [mkRole "r1" "admin" (some 1)]

/-- Authority 2: owner text contains `"radioactive"`. -/
def auth2 : Authority :=
  mkAuth 2 "ca2" "the-radioactive-team" (.pstr "false")
    [mkRole "r2" "user" (some 2)]

/-- A two-authority store. -/
def sampleStore : Store := { authorities := [auth1, auth2], certs := [], roles := [] }

/-- An admin acting identity. -/
def adminUser : User := { email := "adm@x", isAdmin := true, roles := [], authorities := [] }

/-- A non-admin acting identity holding only the role of `auth1`. -/
def memberUser : User :=
  { email := "mem@x", isAdmin := false, roles := [mkRole "r1" "admin" (some 1)],
    authorities := [] }

/-- A non-admin identity with no roles at all (the creator fixture). -/
def creatorUser : User := { email := "creator@x", isAdmin := false, roles := [], authorities := [] }

/-- A plugin that succeeds and returns one admin role descriptor. -/
def okPlugin : IssuerPlugin :=
  { create_authority := fun _ _ =>
      .ok ("BODY", "CHAIN", [{ name := "nr", password := "pw", username := "admin" }]) }

/-- A plugin that succeeds and returns no role descriptors. -/
def emptyRolesPlugin : IssuerPlugin :=
  { create_authority := fun _ _ => .ok ("BODY", "CHAIN", []) }

/-- A plugin that fails. -/
def failPlugin : IssuerPlugin :=
  { create_authority := fun _ _ => .error "backend unavailable" }

/-- A plugin returning a descriptor named like an existing role but with a
non-admin username. -/
def collidePlugin : IssuerPlugin :=
  { create_authority := fun _ _ =>
      .ok ("BODY", "CHAIN", [{ name := "r1", password := "pw", username := "user" }]) }

/-- Well-formed creation parameters. -/
def fullParams : Params :=
  { caName := some "ca9", ownerEmail := some "o@x", pluginName := some "pl",
    caDescription := some "cd" }

/-- A configuration fixture. -/
def cfg0 : Config := { securityTeamEmail := some "sec@x" }

/-- The empty store. -/
def emptyStore : Store := { authorities := [], certs := [], roles := [] }

/-- A store that already holds a role named `r1` with username `admin`. -/
def storeWithAdminRole : Store :=
  { authorities := [], certs := [], roles := [mkRole "r1" "admin" none] }

/-! ## Helper lemmas -/

theorem memB_iff {α : Type} [DecidableEq α] (x : α) :
    ∀ l : List α, memB x l = true ↔ x ∈ l
  | [] => by simp [memB]
  | y :: ys => by
    by_cases h : x = y
    · simp [memB, h]
    · simp [memB, h, memB_iff x ys]

theorem mem_sortInsert (le : Authority → Authority → Bool) (a x : Authority) :
    ∀ l : List Authority, x ∈ sortInsert le a l ↔ x = a ∨ x ∈ l
  | [] => by simp [sortInsert]
  | b :: bs => by
    cases h : le a b with
    | true => simp [sortInsert, h]
    | false =>
      simp [sortInsert, h, mem_sortInsert le a x bs]
      tauto

theorem length_sortInsert (le : Authority → Authority → Bool) (a : Authority) :
    ∀ l : List Authority, (sortInsert le a l).length = l.length + 1
  | [] => by simp [sortInsert]
  | b :: bs => by
    cases h : le a b with
    | true => simp [sortInsert, h]
    | false => simp [sortInsert, h, length_sortInsert le a bs]

theorem mem_sortBy (le : Authority → Authority → Bool) (x : Authority) :
    ∀ l : List Authority, x ∈ sortBy le l ↔ x ∈ l
  | [] => Iff.rfl
  | a :: as => by
    simp [sortBy, mem_sortInsert le a x (sortBy le as), mem_sortBy le x as]

theorem length_sortBy (le : Authority → Authority → Bool) :
    ∀ l : List Authority, (sortBy le l).length = l.length
  | [] => rfl
  | a :: as => by
    simp [sortBy, length_sortInsert le a (sortBy le as), length_sortBy le as]

theorem mem_applySort (sBy sDir : Option String) (l : List Authority)
    (x : Authority) : x ∈ applySort sBy sDir l ↔ x ∈ l := by
  unfold applySort
  split
  · split
    · exact mem_sortBy _ x l
    · exact mem_sortBy _ x l
  · exact Iff.rfl

theorem length_applySort (sBy sDir : Option String) (l : List Authority) :
    (applySort sBy sDir l).length = l.length := by
  unfold applySort
  split
  · split
    · exact length_sortBy _ l
    · exact length_sortBy _ l
  · rfl

/-- A successful filter step keeps exactly the authorities satisfying
`filterPred`. -/
theorem applyFilter_ok {filt : Option String} {l l' : List Authority}
    (h : applyFilter filt l = .ok l') : l' = l.filter (filterPred filt) := by
  unfold applyFilter at h
  unfold filterPred
  by_cases ht : truthyStr filt = true
  · simp only [ht, if_true] at h ⊢
    cases hg : (splitSemi (fmtOpt filt)).get? 1 with
    | none => simp only [hg] at h; split at h <;> cases h
    | some v =>
      simp only [hg] at h ⊢
      by_cases hs : isSubstr "active" (fmtOpt filt) = true
      · simp only [hs, if_true] at h ⊢
        cases h
        rfl
      · simp only [Bool.not_eq_true] at hs
        simp only [hs, Bool.false_eq_true, if_false] at h ⊢
        cases h
        rfl
  · simp only [Bool.not_eq_true] at ht
    simp only [ht, Bool.false_eq_true, if_false] at h ⊢
    cases h
    simp

/-- A role's resolved authority is a stored authority the role
back-references. -/
theorem roleAuthority_some {s : Store} {r : Role} {a : Authority}
    (h : roleAuthority s r = some a) :
    a ∈ s.authorities ∧ r.authorityId = some a.id := by
  unfold roleAuthority at h
  cases hid : r.authorityId with
  | none => rw [hid] at h; cases h
  | some i =>
    rw [hid] at h
    have hmem := List.mem_of_find?_eq_some h
    have hp := List.find?_some h
    have hai : a.id = i := by simpa using hp
    refine ⟨hmem, ?_⟩
    rw [hai]

/-- Membership in the non-admin visibility id list. -/
theorem mem_visibleIds {s : Store} {u : User} {n : Nat} :
    n ∈ visibleIds s u ↔
      ∃ r ∈ u.roles, ∃ a, roleAuthority s r = some a ∧ a.id = n := by
  unfold visibleIds
  simp [List.mem_filterMap]

/-- The role loop appends to the acting identity's held roles precisely the
provisioned roles whose username is `"admin"`, provisions one role per
descriptor, emits only role-persistence events, and touches nothing else
of the identity. -/
theorem provisionRoles_spec (pn : Option String) :
    ∀ (ds : List RoleDescriptor) (s : Store) (u : User),
      (provisionedUser s u pn ds).roles =
        u.roles ++
          (provisionedRoles s u pn ds).filter (fun r => r.username == "admin") ∧
      (provisionedRoles s u pn ds).length = ds.length ∧
      (∀ e ∈ provisionedEvents s u pn ds, ∃ n, e = Event.rolePersisted n) ∧
      (provisionedUser s u pn ds).email = u.email ∧
      (provisionedUser s u pn ds).isAdmin = u.isAdmin ∧
      (provisionedUser s u pn ds).authorities = u.authorities
  | [], s, u => by
    simp [provisionedUser, provisionedRoles, provisionedEvents, provisionRoles]
  | d :: ds, s, u => by
    unfold provisionedUser provisionedRoles provisionedEvents
    simp only [provisionRoles]
    rcases hrc : roleServiceCreate s d.name d.password (autoRoleDescription pn)
        d.username with ⟨s1, role, ev1⟩
    have hev1 : ∀ e ∈ ev1, ∃ n, e = Event.rolePersisted n := by
      unfold roleServiceCreate at hrc
      rcases hf : s.roles.find? (fun r => r.name == d.name) with _ | r0 <;>
        rw [hf] at hrc <;> cases hrc <;> simp
    cases hu : role.username == "admin" with
    | true =>
      have IH := provisionRoles_spec pn ds s1
        { u with roles := u.roles ++ [role] }
      rcases hpr : provisionRoles s1 { u with roles := u.roles ++ [role] } pn ds
        with ⟨s2, u2, rs, ev2⟩
      unfold provisionedUser provisionedRoles provisionedEvents at IH
      rw [hpr] at IH
      obtain ⟨ih1, ih2, ih3, ih4, ih5, ih6⟩ := IH
      simp only at ih1 ih2 ih3 ih4 ih5 ih6
      refine ⟨?_, ?_, ?_, ?_, ?_, ?_⟩
      · simp [hu, hpr, ih1, List.filter_cons]
      · simp [hu, hpr, ih2]
      · intro e he
        simp only [hu, if_true, hpr] at he
        simp only [List.mem_append] at he
        rcases he with he | he
        · exact hev1 e he
        · exact ih3 e he
      · simp [hu, hpr, ih4]
      · simp [hu, hpr, ih5]
      · simp [hu, hpr, ih6]
    | false =>
      have IH := provisionRoles_spec pn ds s1 u
      rcases hpr : provisionRoles s1 u pn ds with ⟨s2, u2, rs, ev2⟩
      unfold provisionedUser provisionedRoles provisionedEvents at IH
      rw [hpr] at IH
      obtain ⟨ih1, ih2, ih3, ih4, ih5, ih6⟩ := IH
      simp only at ih1 ih2 ih3 ih4 ih5 ih6
      refine ⟨?_, ?_, ?_, ?_, ?_, ?_⟩
      · simp [hu, hpr, ih1, List.filter_cons]
      · simp [hu, hpr, ih2]
      · intro e he
        simp only [hu, Bool.false_eq_true, if_false, hpr] at he
        simp only [List.mem_append] at he
        rcases he with he | he
        · exact hev1 e he
        · exact ih3 e he
      · simp [hu, hpr, ih4]
      · simp [hu, hpr, ih5]
      · simp [hu, hpr, ih6]

/-! ## Claim theorems -/

/-- C10: `get_all` returns every persisted Authority independently of the
acting identity — it applies no row-level visibility restriction, so any
two acting identities get the identical result over the same store. -/
theorem c10_get_all_identity_independent :
    (∀ (s : Store) (u : User), get_all s u = s.authorities) ∧
    (∀ (s : Store) (u v : User), get_all s u = get_all s v) :=
  ⟨fun _ _ => rfl, fun _ _ _ => rfl⟩

/-- C6: for an existing Authority, `update` with a falsy `active` value
(`None`, `False`, `""`) leaves the active flag unchanged, and a truthy
`active` value sets it. -/
theorem c6_update_active_truthiness (s : Store) (authorityId : Nat)
    (description owner : Option String) (active : Option PyVal)
    (roles : Option (List Role)) (a0 : Authority)
    (hget : get s authorityId = .ok a0) :
    (pyTruthyOpt active = false →
      (update s authorityId description owner active roles).map
        (fun p => p.2.active) = .ok a0.active) ∧
    (∀ v, active = some v → pyTruthy v = true →
      (update s authorityId description owner active roles).map
        (fun p => p.2.active) = .ok v) := by
  constructor
  · intro htr
    simp only [update, hget]
    rcases roles with _ | rl
    · simp [htr, Except.map]
    · rcases rl with _ | ⟨r, rs⟩ <;> simp [htr, Except.map]
  · intro v hv htv
    subst hv
    simp only [update, hget]
    rcases roles with _ | rl
    · simp [pyTruthyOpt, htv, Except.map]
    · rcases rl with _ | ⟨r, rs⟩ <;> simp [pyTruthyOpt, htv, Except.map]

/-- Witness for C6: on the sample store, a falsy `active` leaves the flag
at its stored value and a truthy one overwrites it. -/
theorem c6_update_active_truthiness_witness :
    ((update sampleStore 1 (some "nd") (some "no") (some (PyVal.pbool false))
        none).map (fun p => p.2.active) = .ok auth1.active) ∧
    ((update sampleStore 1 (some "nd") (some "no") (some (PyVal.pbool true))
        none).map (fun p => p.2.active) = .ok (PyVal.pbool true)) :=
  ⟨(c6_update_active_truthiness sampleStore 1 (some "nd") (some "no")
      (some (PyVal.pbool false)) none auth1 rfl).1 rfl,
   (c6_update_active_truthiness sampleStore 1 (some "nd") (some "no")
      (some (PyVal.pbool true)) none auth1 rfl).2 (PyVal.pbool true) rfl rfl⟩

/-- C7: for an existing Authority, `update` with a non-empty `roles`
sequence replaces the Role set wholesale, while an absent (`None`) or
empty `roles` value leaves the Role set exactly as it was. -/
theorem c7_update_roles_replacement (s : Store) (authorityId : Nat)
    (description owner : Option String) (active : Option PyVal)
    (a0 : Authority) (hget : get s authorityId = .ok a0) :
    (∀ r rs, (update s authorityId description owner active
        (some (r :: rs))).map (fun p => p.2.roles) = .ok (r :: rs)) ∧
    ((update s authorityId description owner active none).map
        (fun p => p.2.roles) = .ok a0.roles) ∧
    ((update s authorityId description owner active (some [])).map
        (fun p => p.2.roles) = .ok a0.roles) := by
  refine ⟨?_, ?_, ?_⟩
  · intro r rs
    simp only [update, hget]
    rcases active with _ | v
    · rfl
    · cases htv : pyTruthy v <;> simp [pyTruthyOpt, htv, Except.map]
  · simp only [update, hget]
    rcases active with _ | v
    · rfl
    · cases htv : pyTruthy v <;> simp [pyTruthyOpt, htv, Except.map]
  · simp only [update, hget]
    rcases active with _ | v
    · rfl
    · cases htv : pyTruthy v <;> simp [pyTruthyOpt, htv, Except.map]

/-- Witness for C7: on the sample store, a non-empty roles list replaces
the Role set, and `None` and `[]` leave it unchanged. -/
theorem c7_update_roles_replacement_witness :
    ((update sampleStore 1 none none none
        (some [mkRole "x" "u" none])).map (fun p => p.2.roles) =
      .ok [mkRole "x" "u" none]) ∧
    ((update sampleStore 1 none none none none).map (fun p => p.2.roles) =
      .ok auth1.roles) ∧
    ((update sampleStore 1 none none none (some [])).map (fun p => p.2.roles) =
      .ok auth1.roles) :=
  ⟨(c7_update_roles_replacement sampleStore 1 none none none auth1 rfl).1
      (mkRole "x" "u" none) [],
   (c7_update_roles_replacement sampleStore 1 none none none auth1 rfl).2.1,
   (c7_update_roles_replacement sampleStore 1 none none none auth1 rfl).2.2⟩

/-- C8: the create operation requires CA name, owner email, plugin name
and description; a missing field fails with `ValidationError` before any
state change.  The validation lives in the API layer in front of the
service (modelled from the spec, §4.3). -/
theorem c8_create_requires_fields (s : Store) (u : User)
    (reg : List (String × IssuerPlugin)) (cfg : Config) (p : Params)
    (h : p.caName = none ∨ p.ownerEmail = none ∨ p.pluginName = none ∨
      p.caDescription = none) :
    (createOp s u reg cfg p).result = .error .validationError ∧
    (createOp s u reg cfg p).store = s ∧
    (createOp s u reg cfg p).user = u := by
  have hv : validateCreateParams p = .error .validationError := by
    unfold validateCreateParams
    rcases h with h | h | h | h <;> simp [h]
  unfold createOp
  rw [hv]
  exact ⟨rfl, rfl, rfl⟩

/-- Witness for C8: omitting the description makes create fail with a
ValidationError. -/
theorem c8_create_requires_fields_witness :
    (createOp emptyStore creatorUser [("pl", okPlugin)] cfg0
        { caName := some "ca9", ownerEmail := some "o@x",
          pluginName := some "pl", caDescription := none }).result =
      .error .validationError ∧
    (createOp emptyStore creatorUser [("pl", okPlugin)] cfg0
        { caName := some "ca9", ownerEmail := some "o@x",
          pluginName := some "pl", caDescription := none }).store =
      emptyStore ∧
    (createOp emptyStore creatorUser [("pl", okPlugin)] cfg0
        { caName := some "ca9", ownerEmail := some "o@x",
          pluginName := some "pl", caDescription := none }).user =
      creatorUser :=
  c8_create_requires_fields emptyStore creatorUser [("pl", okPlugin)] cfg0
    { caName := some "ca9", ownerEmail := some "o@x",
      pluginName := some "pl", caDescription := none }
    (Or.inr (Or.inr (Or.inr rfl)))

/-- C1: when the issuer plugin's `create_authority` call fails, `create`
fails with that error, the store is exactly the initial store (no
Certificate, Role or Authority was persisted), the acting identity is
untouched, and the trace contains the plugin call and nothing else —
in particular no persistence event precedes the plugin call. -/
theorem c1_plugin_failure_persists_nothing (s : Store) (u : User)
    (reg : List (String × IssuerPlugin)) (cfg : Config) (p : Params)
    (pl : IssuerPlugin) (msg : String)
    (hpl : pluginsGet reg p.pluginName = some pl)
    (hfail : pl.create_authority p u.email = .error msg) :
    create s u reg cfg p =
      ⟨s, u, [.pluginCalled], .error (.pluginError msg)⟩ := by
  unfold create
  simp only [hpl, hfail]

/-- Witness for C1: a failing plugin leaves the empty store empty. -/
theorem c1_plugin_failure_persists_nothing_witness :
    create emptyStore creatorUser [("pl", failPlugin)] cfg0 fullParams =
      ⟨emptyStore, creatorUser, [.pluginCalled],
       .error (.pluginError "backend unavailable")⟩ :=
  c1_plugin_failure_persists_nothing emptyStore creatorUser
    [("pl", failPlugin)] cfg0 fullParams failPlugin "backend unavailable"
    rfl rfl

/-- Counterexample to C9 as stated: for an admin identity and a name with
no matching Authority, `get_authority_role` does not return none — the
lookup fails (the source dereferences the missing record
unconditionally). -/
theorem c9_counterexample :
    get_authority_role emptyStore adminUser "caX" ≠ .ok none ∧
    get_authority_role emptyStore adminUser "caX" = .error .notFound :=
  ⟨fun h => Except.noConfusion h, rfl⟩

/-- C9 (amended): for an admin identity, `get_authority_role` returns the
first Role of the uniquely named Authority's Role set whenever that
Authority exists and has at least one Role; when no Authority of that
name exists, the lookup fails with the persistence boundary's not-found
error instead of returning none. -/
theorem c9_admin_role_resolution (s : Store) (u : User) (caName : String)
    (hadm : u.isAdmin = true) :
    (∀ a, a ∈ s.authorities → a.name = some caName →
      (∀ b ∈ s.authorities, b.name = some caName → b = a) →
      ∀ r rs, a.roles = r :: rs →
        get_authority_role s u caName = .ok (some r) ∧ r ∈ a.roles) ∧
    ((∀ b ∈ s.authorities, b.name ≠ some caName) →
      get_authority_role s u caName = .error .notFound) := by
  constructor
  · intro a ha hname huniq r rs hroles
    have hsome : (s.authorities.find? (fun b => b.name == some caName)).isSome := by
      rw [List.find?_isSome]
      exact ⟨a, ha, by simp [hname]⟩
    obtain ⟨b, hb⟩ := Option.isSome_iff_exists.mp hsome
    have hbmem := List.mem_of_find?_eq_some hb
    have hbname : b.name = some caName := by simpa using List.find?_some hb
    have hba : b = a := huniq b hbmem hbname
    subst hba
    constructor
    · unfold get_authority_role get_by_name databaseGetByName
      simp only [hadm, if_true, hb, hroles]
    · rw [hroles]
      exact List.mem_cons_self r rs
  · intro hne
    have hfind : s.authorities.find? (fun b => b.name == some caName) = none := by
      rw [List.find?_eq_none]
      intro x hx
      simp [hne x hx]
    unfold get_authority_role get_by_name databaseGetByName
    simp [hadm, hfind]

/-- Witness for C9 (amended): on the sample store, the admin resolves the
first role of `ca1`, and resolving a missing name fails with not-found. -/
theorem c9_admin_role_resolution_witness :
    (get_authority_role sampleStore adminUser "ca1" =
        .ok (some (mkRole "r1" "admin" (some 1))) ∧
      mkRole "r1" "admin" (some 1) ∈ auth1.roles) ∧
    get_authority_role sampleStore adminUser "caX" = .error .notFound :=
  ⟨(c9_admin_role_resolution sampleStore adminUser "ca1" rfl).1 auth1
      (by decide) rfl (by decide) (mkRole "r1" "admin" (some 1)) [] rfl,
   (c9_admin_role_resolution sampleStore adminUser "caX" rfl).2 (by decide)⟩

/-- Counterexample to C4 as stated: a role descriptor whose username is
not `"admin"` can still make `create` grant a role to the acting identity,
because the source tests the username of the *provisioned* role, and the
role provisioner reuses an existing role of the same name — here a
pre-existing role named `r1` with username `admin`. -/
theorem c4_counterexample :
    collidePlugin.create_authority fullParams creatorUser.email =
      .ok ("BODY", "CHAIN",
        [{ name := "r1", password := "pw", username := "user" }]) ∧
    (∀ d : RoleDescriptor,
      d ∈ [({ name := "r1", password := "pw", username := "user" } :
          RoleDescriptor)] → d.username ≠ "admin") ∧
    creatorUser.roles = [] ∧
    (create storeWithAdminRole creatorUser [("pl", collidePlugin)] cfg0
        fullParams).user.roles = [mkRole "r1" "admin" none] :=
  ⟨rfl, by decide, rfl, rfl⟩

/-- C4 (amended): during `create`, the roles granted to the acting
identity are exactly the provisioned roles whose username equals
`"admin"` — where the provisioned role is the existing role reused by
name when there is one, and a fresh role carrying the descriptor's
username otherwise. -/
theorem c4_admin_username_grant (s : Store) (u : User)
    (reg : List (String × IssuerPlugin)) (cfg : Config) (p : Params)
    (pl : IssuerPlugin) (body chain : String) (ds : List RoleDescriptor)
    (oe : String)
    (hpl : pluginsGet reg p.pluginName = some pl)
    (hok : pl.create_authority p u.email = .ok (body, chain, ds))
    (hoe : p.ownerEmail = some oe) :
    (create s u reg cfg p).user.roles =
      u.roles ++ (provisionedRoles s u p.pluginName ds).filter
        (fun r => r.username == "admin") := by
  have hpn : ∃ pn, p.pluginName = some pn := by
    cases hp : p.pluginName with
    | none => rw [hp] at hpl; simp [pluginsGet] at hpl
    | some pn => exact ⟨pn, rfl⟩
  obtain ⟨pn, hpn⟩ := hpn
  have hu2 := (provisionRoles_spec p.pluginName ds s u).1
  unfold provisionedUser at hu2
  unfold provisionedRoles at hu2 ⊢
  rcases hpr : provisionRoles s u p.pluginName ds with ⟨s2, u2, rs, ev⟩
  rw [hpr] at hu2
  simp only at hu2
  rw [hpn] at hpl hpr
  unfold create
  simp only [hpl, hok, hoe, hpn, hpr]
  cases hcd : p.caDescription with
  | none => simpa using hu2
  | some cd => simpa using hu2

/-- Witness for C4 (amended): a fresh admin-username descriptor is granted
to the creating identity. -/
theorem c4_admin_username_grant_witness :
    (create emptyStore creatorUser [("pl", okPlugin)] cfg0
        fullParams).user.roles =
      creatorUser.roles ++
        (provisionedRoles emptyStore creatorUser (some "pl")
          [{ name := "nr", password := "pw", username := "admin" }]).filter
          (fun r => r.username == "admin") :=
  c4_admin_username_grant emptyStore creatorUser [("pl", okPlugin)] cfg0
    fullParams okPlugin "BODY" "CHAIN"
    [{ name := "nr", password := "pw", username := "admin" }] "o@x"
    rfl rfl rfl

/-- Counterexample to C3 as stated: a successful `create` run in which the
Authority object is constructed *before* the Certificate is persisted
(the trace shows construction at position 1 and certificate persistence at
position 2), and whose resulting Authority has an empty Role set because
the plugin returned no role descriptors. -/
theorem c3_counterexample :
    ((create emptyStore creatorUser [("pl", emptyRolesPlugin)] cfg0
        fullParams).result.toOption.map Authority.roles) = some [] ∧
    (create emptyStore creatorUser [("pl", emptyRolesPlugin)] cfg0
        fullParams).trace =
      [.pluginCalled, .authorityConstructed, .certPersisted,
       .authorityPersisted, .userAuthorityLinked] :=
  ⟨rfl, rfl⟩

/-- C3 (amended): in every successful `create`, the Certificate is
persisted before the Authority is persisted (though after the Authority
object is constructed), the resulting Authority references exactly the one
root certificate body and chain the plugin returned, and its Role set is
the provisioned roles — one per plugin role descriptor, hence non-empty
whenever the plugin returned at least one descriptor. -/
theorem c3_cert_persisted_before_authority (s : Store) (u : User)
    (reg : List (String × IssuerPlugin)) (cfg : Config) (p : Params)
    (pl : IssuerPlugin) (body chain : String) (ds : List RoleDescriptor)
    (oe cd : String)
    (hpl : pluginsGet reg p.pluginName = some pl)
    (hok : pl.create_authority p u.email = .ok (body, chain, ds))
    (hoe : p.ownerEmail = some oe)
    (hcd : p.caDescription = some cd) :
    ∃ a pre,
      (create s u reg cfg p).result = .ok a ∧
      a.body = body ∧ a.chain = chain ∧
      a.roles = provisionedRoles s u p.pluginName ds ∧
      (ds ≠ [] → a.roles ≠ []) ∧
      (create s u reg cfg p).trace =
        pre ++ [.authorityConstructed, .certPersisted, .authorityPersisted,
                .userAuthorityLinked] ∧
      Event.certPersisted ∉ pre ∧ Event.authorityPersisted ∉ pre := by
  have hpn : ∃ pn, p.pluginName = some pn := by
    cases hp : p.pluginName with
    | none => rw [hp] at hpl; simp [pluginsGet] at hpl
    | some pn => exact ⟨pn, rfl⟩
  obtain ⟨pn, hpn⟩ := hpn
  obtain ⟨_, hlen, hev, _⟩ := provisionRoles_spec p.pluginName ds s u
  unfold provisionedRoles at hlen ⊢
  unfold provisionedEvents at hev
  rcases hpr : provisionRoles s u p.pluginName ds with ⟨s2, u2, rs, ev⟩
  rw [hpr] at hlen hev
  simp only at hlen hev
  rw [hpn] at hpl hpr
  unfold create
  simp only [hpl, hok, hoe, hpn, hcd, hpr]
  refine ⟨_, Event.pluginCalled :: ev, rfl, rfl, rfl, rfl, ?_, rfl, ?_, ?_⟩
  · intro hds hrs
    simp only at hrs
    rw [hrs] at hlen
    exact hds (List.eq_nil_of_length_eq_zero hlen.symm)
  · intro h
    rcases List.mem_cons.mp h with h | h
    · exact Event.noConfusion h
    · obtain ⟨n, hn⟩ := hev _ h
      exact Event.noConfusion hn
  · intro h
    rcases List.mem_cons.mp h with h | h
    · exact Event.noConfusion h
    · obtain ⟨n, hn⟩ := hev _ h
      exact Event.noConfusion hn

/-- Witness for C3 (amended): a concrete successful run with one role
descriptor. -/
theorem c3_cert_persisted_before_authority_witness :
    ∃ a pre,
      (create emptyStore creatorUser [("pl", okPlugin)] cfg0
          fullParams).result = .ok a ∧
      a.body = "BODY" ∧ a.chain = "CHAIN" ∧
      a.roles = provisionedRoles emptyStore creatorUser (some "pl")
        [{ name := "nr", password := "pw", username := "admin" }] ∧
      ([({ name := "nr", password := "pw", username := "admin" } :
          RoleDescriptor)] ≠ [] → a.roles ≠ []) ∧
      (create emptyStore creatorUser [("pl", okPlugin)] cfg0
          fullParams).trace =
        pre ++ [.authorityConstructed, .certPersisted, .authorityPersisted,
                .userAuthorityLinked] ∧
      Event.certPersisted ∉ pre ∧ Event.authorityPersisted ∉ pre :=
  c3_cert_persisted_before_authority emptyStore creatorUser
    [("pl", okPlugin)] cfg0 fullParams okPlugin "BODY" "CHAIN"
    [{ name := "nr", password := "pw", username := "admin" }] "o@x" "cd"
    rfl rfl rfl rfl

/-- C2: `render` for a non-admin identity (over a referentially consistent
store) never returns an Authority whose Role set is disjoint from the
identity's held Roles; for an admin identity, `render` returns every
Authority matching the filter regardless of Role membership (whenever the
requested page is the first and large enough to hold everything). -/
theorem c2_render_row_visibility :
    (∀ (s : Store) (u : User) (args : ListArgs) (pg : Page) (a : Authority),
      Consistent s u → u.isAdmin = false → render s u args = .ok pg →
      a ∈ pg.items → ∃ r, r ∈ a.roles ∧ r ∈ u.roles) ∧
    (∀ (s : Store) (u : User) (args : ListArgs) (pg : Page) (a : Authority),
      u.isAdmin = true → args.page = 1 → s.authorities.length ≤ args.count →
      render s u args = .ok pg → a ∈ s.authorities →
      filterPred args.filter a = true → a ∈ pg.items) := by
  constructor
  · intro s u args pg a hcons hadm hr hmem
    unfold render at hr
    cases hf : applyFilter args.filter s.authorities with
    | error e => rw [hf] at hr; cases hr
    | ok l1 =>
      rw [hf] at hr
      simp only [hadm, Bool.false_eq_true, if_false] at hr
      cases hr
      have h3 : a ∈ applySort args.sortBy args.sortDir
          (l1.filter (fun b => memB b.id (visibleIds s u))) :=
        (((List.take_sublist _ _).trans (List.drop_sublist _ _)).subset) hmem
      have h2 := List.mem_filter.mp ((mem_applySort _ _ _ _).mp h3)
      have hidmem : a.id ∈ visibleIds s u := (memB_iff _ _).mp h2.2
      have hal : a ∈ s.authorities := by
        have hfeq := applyFilter_ok hf
        exact (List.mem_filter.mp (hfeq ▸ h2.1)).1
      obtain ⟨r, hru, a', hra', haid⟩ := mem_visibleIds.mp hidmem
      obtain ⟨_, hrid⟩ := roleAuthority_some hra'
      have hra : r ∈ a.roles := hcons.2 r hru a hal (by rw [hrid, haid])
      exact ⟨r, hra, hru⟩
  · intro s u args pg a hadm hpage hcount hr hmem hfp
    unfold render at hr
    cases hf : applyFilter args.filter s.authorities with
    | error e => rw [hf] at hr; cases hr
    | ok l1 =>
      rw [hf] at hr
      simp only [hadm, if_true] at hr
      cases hr
      have hl1 : l1 = s.authorities.filter (filterPred args.filter) :=
        applyFilter_ok hf
      have hmem1 : a ∈ l1 := by
        rw [hl1]
        exact List.mem_filter.mpr ⟨hmem, hfp⟩
      have hmem3 : a ∈ applySort args.sortBy args.sortDir l1 :=
        (mem_applySort _ _ _ _).mpr hmem1
      have hlen : (applySort args.sortBy args.sortDir l1).length ≤ args.count := by
        rw [length_applySort, hl1]
        exact le_trans (List.length_filter_le _ _) hcount
      unfold paginate
      simp only [hpage, Nat.sub_self, Nat.zero_mul, List.drop_zero]
      rw [List.take_of_length_le hlen]
      exact hmem3

/-- Witness for C2: on the sample store, the non-admin member sees only
`ca1`, which shares a role with them; the admin sees the authority
matching an owner filter. -/
theorem c2_render_row_visibility_witness :
    (∃ r, r ∈ auth1.roles ∧ r ∈ memberUser.roles) ∧
    auth1 ∈ (Page.mk [auth1] 1).items :=
  ⟨c2_render_row_visibility.1 sampleStore memberUser
      ⟨none, none, 1, 10, none⟩ ⟨[auth1], 1⟩ auth1 (by decide) rfl rfl
      (by decide),
   c2_render_row_visibility.2 sampleStore adminUser
      ⟨none, none, 1, 10, some "owner;alice"⟩ ⟨[auth1], 1⟩ auth1 rfl rfl
      (by decide) rfl (by decide) (by decide)⟩

/-- For an admin, a first page large enough to hold every authority is
exactly the successfully filtered list, with its length as total. -/
theorem render_admin_firstpage (s : Store) (u : User) (c : Nat)
    (filt : Option String) (L : List Authority)
    (hadm : u.isAdmin = true) (hc : s.authorities.length ≤ c)
    (hf : applyFilter filt s.authorities = .ok L) :
    render s u ⟨none, none, 1, c, filt⟩ = .ok ⟨L, L.length⟩ := by
  have hlen : L.length ≤ c := by
    rw [applyFilter_ok hf]
    exact le_trans (List.length_filter_le _ _) hc
  unfold render
  dsimp only
  simp only [hf, hadm, if_true]
  have hsort : applySort none none L = L := rfl
  rw [hsort]
  unfold paginate
  simp only [Nat.sub_self, Nat.zero_mul, List.drop_zero]
  rw [List.take_of_length_le hlen]

/-- Counterexample to C5 as stated: the filter `"owner;radioactive"` names
the `owner` field, and `auth2`'s owner text contains `"radioactive"`, yet
`render` returns nothing — because the source dispatches on the substring
`'active' in filt` over the whole filter expression, not on the field
name, and so compares the active flag against `"radioactive"`. -/
theorem c5_counterexample :
    auth2 ∈ sampleStore.authorities ∧
    isSubstr "radioactive" (fmtOpt auth2.owner) = true ∧
    render sampleStore adminUser ⟨none, none, 1, 10, some "owner;radioactive"⟩ =
      .ok ⟨[], 0⟩ :=
  ⟨by decide, rfl, rfl⟩

/-- C5 (amended): for an admin on a large-enough first page, the filter
expression `"active;true"` returns exactly the Authorities whose active
flag equals the literal text `"true"`, and `"owner;alice"` — whose text
does not contain `"active"` — returns exactly the Authorities whose owner
contains `"alice"`; in general the active-equality branch is taken
whenever the substring `"active"` occurs anywhere in the filter
expression, not only when the field is named `active`. -/
theorem c5_filter_policies (s : Store) (u : User) (c : Nat)
    (hadm : u.isAdmin = true) (hc : s.authorities.length ≤ c) :
    render s u ⟨none, none, 1, c, some "active;true"⟩ =
      .ok ⟨s.authorities.filter (fun a => pyEq a.active (.pstr "true")),
           (s.authorities.filter
             (fun a => pyEq a.active (.pstr "true"))).length⟩ ∧
    render s u ⟨none, none, 1, c, some "owner;alice"⟩ =
      .ok ⟨s.authorities.filter (fun a =>
             match a.owner with
             | some o => isSubstr "alice" o
             | none => false),
           (s.authorities.filter (fun a =>
             match a.owner with
             | some o => isSubstr "alice" o
             | none => false)).length⟩ :=
  ⟨render_admin_firstpage s u c (some "active;true") _ hadm hc rfl,
   render_admin_firstpage s u c (some "owner;alice") _ hadm hc rfl⟩

/-- Witness for C5 (amended): both filter policies on the sample store. -/
theorem c5_filter_policies_witness :
    render sampleStore adminUser ⟨none, none, 1, 10, some "active;true"⟩ =
      .ok ⟨sampleStore.authorities.filter
             (fun a => pyEq a.active (.pstr "true")),
           (sampleStore.authorities.filter
             (fun a => pyEq a.active (.pstr "true"))).length⟩ ∧
    render sampleStore adminUser ⟨none, none, 1, 10, some "owner;alice"⟩ =
      .ok ⟨sampleStore.authorities.filter (fun a =>
             match a.owner with
             | some o => isSubstr "alice" o
             | none => false),
           (sampleStore.authorities.filter (fun a =>
             match a.owner with
             | some o => isSubstr "alice" o
             | none => false)).length⟩ :=
  c5_filter_policies sampleStore adminUser 10 rfl (by decide)

end Lemur
